import Mathlib

/-!
Shallow embedding of the book-recommendation core of the
Maven-Bookshelf-Challenge repository (`src/utils/recommend.py`), together
with theorems settling the specification claims about it.

Modelling conventions:
  * A pandas DataFrame of books becomes a `List Book`; row order is list
    order.  Per the spec's interface contract (section 6) the caller fills
    the `author` and `genres` fields with the empty string before the core
    runs, so those fields are `String`; the numeric fields and
    `similar_books` stay nullable and become `Option` fields.
  * Python/numpy floats become `ℚ`.
  * `numpy`'s global random generator is modelled by an explicit state
    (`Nat`) passed into `get_recommendations`; `np.random.seed k` replaces
    that state by `k`, and the Gaussian draws of `np.random.normal` are an
    arbitrary function `gauss : Nat → Nat → List ℚ` of the seeded state and
    the requested length (the theorems hold for every such function, in
    particular for the real Mersenne-Twister draws).
  * Python's `hash(str(favorite_ids))` is an arbitrary process-dependent
    function `pyHash : List Int → Nat` of the favorite-id list.
  * `sklearn.MinMaxScaler.fit_transform` raises `ValueError` on an input
    with zero samples; `get_recommendations` therefore returns
    `Except String _`, with the error case reached exactly when the
    filtered candidate pool is empty.
-/

/-- ASCII whitespace stripped by Python's default `str.strip` (the
catalog's genre and similar-book strings are ASCII text). -/
def isSpaceChar (c : Char) : Bool :=
  c = ' ' ∨ c = '\t' ∨ c = '\n' ∨ c = '\r' ∨ c = '\x0b' ∨ c = '\x0c'

/-- Embeds `s.split(',')` on a character list; Python's `''.split(',') == ['']`
corresponds to the `[[]]` base case. -/
def splitComma : List Char → List (List Char)
  | [] => [[]]
  | c :: rest =>
    match splitComma rest with
    | [] => [[]]
    | h :: t => if c = ',' then [] :: h :: t else (c :: h) :: t

/-- Python `s.split(',')`. -/
def pySplitComma (s : String) : List String := (splitComma s.data).map List.asString

/-- Python `s.strip()`. -/
def pyStrip (s : String) : String :=
  (((s.data.dropWhile isSpaceChar).reverse.dropWhile isSpaceChar).reverse).asString

/-- Python `s.lower()` (ASCII case folding, which covers the catalog's
genre strings). -/
def pyLower (s : String) : String := (s.data.map Char.toLower).asString

/-- Splits a genre string on commas and normalizes each token, embedding
`[g.strip().lower() for g in s.split(',')]` (recommend.py lines 32 and 143). -/
def genreTokens (s : String) : List String :=
  (pySplitComma s).map (fun g => pyLower (pyStrip g))

/-- A `collections.Counter` over strings: an association list whose key order
is first-insertion order, as in Python dicts. -/
abbrev Counter := List (String × Nat)

/-- Adds one occurrence of `k` to the counter, keeping insertion order. -/
def counterAdd (c : Counter) (k : String) : Counter :=
  if c.any (fun p => p.1 = k) then
    c.map (fun p => if p.1 = k then (p.1, p.2 + 1) else p)
  else
    c ++ [(k, 1)]

/-- Embeds `Counter.update` with a list of keys (recommend.py line 33). -/
def counterUpdate (c : Counter) (ks : List String) : Counter :=
  ks.foldl counterAdd c

/-- Embeds `counter.get(k, 0)` (recommend.py line 149). -/
def counterGet (c : Counter) (k : String) : Nat :=
  match c.find? (fun p => p.1 = k) with
  | some p => p.2
  | none => 0

/-- Embeds `max(counter.values())` (recommend.py line 149).  Python raises on an
empty counter; that call site is only reached when a genre matched
`user_top_genres`, which is drawn from the counter, so the counter is
non-empty there.  On an empty counter this returns `0`. -/
def counterValuesMax (c : Counter) : Nat :=
  (c.map (fun p => p.2)).foldl max 0

/-- Embeds `Counter.most_common(k)`: entries sorted by count descending; Python's
`sorted` is stable, so ties keep insertion order, which this insertion sort
(inserting each earlier entry before later entries of equal count)
reproduces. -/
def mostCommon (c : Counter) (k : Nat) : Counter :=
  (c.insertionSort (fun a b => b.2 ≤ a.2)).take k

/-- Minimum of a list of rationals (0 on the empty list, unused there). -/
def listMin (xs : List ℚ) : ℚ :=
  match xs with
  | [] => 0
  | x :: r => r.foldl min x

/-- Maximum of a list of rationals (0 on the empty list, unused there). -/
def listMax (xs : List ℚ) : ℚ :=
  match xs with
  | [] => 0
  | x :: r => r.foldl max x

/-- Embeds `np.mean` of a list of rationals. -/
def listMean (xs : List ℚ) : ℚ := xs.sum / xs.length

/-- Embeds `sklearn.preprocessing.MinMaxScaler().fit_transform` on one column
(recommend.py lines 100-101): `(x - min) / (max - min)`, where sklearn
substitutes a divisor of 1 when the data range is zero
(`_handle_zeros_in_scale`).  An empty input makes sklearn raise; the caller
`get_recommendations` models that by erroring before this runs. -/
def minMaxScale (xs : List ℚ) : List ℚ :=
  let mn := listMin xs
  let mx := listMax xs
  let scale := if mx - mn = 0 then 1 else mx - mn
  xs.map (fun x => (x - mn) / scale)

/-- A row of the works catalog as seen by the core, after the caller's
normalization (spec section 3 and section 6): `author` and `genres` are
defaulted to the empty string upstream, `work_id` is integer-valued after
line 15's cast. -/
structure Book where
  work_id : Int
  title : String
  author : String
  genres : String
  original_publication_year : Option ℚ
  avg_rating : Option ℚ
  ratings_count : Option ℚ
  similar_books : Option String
deriving Repr, DecidableEq

/-- The user preference profile computed by the Preference Extractor
(recommend.py lines 24-52). -/
structure Profile where
  genre_counter : Counter
  author_counter : Counter
  top_genres : List String
  top_authors : List String
  avg_year_pref : ℚ
  avg_rating_pref : ℚ
deriving Repr, DecidableEq

/-- Embeds `favorite_ids`: the identifiers supplied in the favorites list
(recommend.py line 12; the `int` conversion is already reflected in the
`Int` type of the second component). -/
def favorite_ids (favorite_books_list : List (String × Int)) : List Int :=
  favorite_books_list.map (fun p => p.2)

/-- Embeds `fav_books = works_df[works_df['work_id'].isin(favorite_ids)]`
(recommend.py line 17). -/
def favBooksOf (favIds : List Int) (works_df : List Book) : List Book :=
  works_df.filter (fun b => b.work_id ∈ favIds)

/-- The Preference Extractor (recommend.py lines 24-52) applied to the
resolved favorite rows.  `pd.notna` on `genres` and `author` is always true
under the caller's empty-string normalization, so those updates are
unconditional; an empty genre string still contributes the token `''`,
exactly as `''.split(',')` does in Python. -/
def buildProfile (fav_books : List Book) : Profile :=
  let genre_counter :=
    fav_books.foldl (fun c b => counterUpdate c (genreTokens b.genres)) []
  let author_preferences :=
    fav_books.foldl (fun c b => counterAdd c b.author) []
  let year_preferences :=
    fav_books.filterMap (fun b => b.original_publication_year)
  let rating_preferences :=
    fav_books.filterMap (fun b => b.avg_rating)
  { genre_counter := genre_counter
    author_counter := author_preferences
    top_genres := (mostCommon genre_counter 5).map (fun p => p.1)
    top_authors := (mostCommon author_preferences 3).map (fun p => p.1)
    avg_year_pref := if year_preferences = [] then 2000 else listMean year_preferences
    avg_rating_pref := if rating_preferences = [] then 4 else listMean rating_preferences }

/-- Decimal value of a digit string. -/
def digitsToNat (cs : List Char) : Nat :=
  cs.foldl (fun n c => n * 10 + (c.toNat - 48)) 0

/-- One token of a `similar_books` string: kept when `x.strip().isdigit()`
holds, then converted by `int` (recommend.py line 61); non-digit tokens are
dropped. -/
def parseSimilarToken (s : String) : Option Int :=
  let t := pyStrip s
  if t.data ≠ [] ∧ t.data.all Char.isDigit then some (Int.ofNat (digitsToNat t.data))
  else none

/-- Embeds `similar_ids`: union of all similar-book identifiers declared by the
favorites (recommend.py lines 58-64); rows with a null `similar_books` are
dropped, unparsable tokens are skipped.  Membership is all that is used of
the Python set, so a list suffices. -/
def similarIdsOf (fav_books : List Book) : List Int :=
  (fav_books.filterMap (fun b => b.similar_books)).foldl
    (fun acc s => acc ++ (pySplitComma s).filterMap parseSimilarToken) []

/-- The candidate pool (recommend.py lines 67-71): the catalog minus the
favorite identifiers, minus rows missing `avg_rating` or `ratings_count`,
minus rows with `ratings_count < 50`. -/
def candidatesOf (favIds : List Int) (works_df : List Book) : List Book :=
  ((works_df.filter (fun b => b.work_id ∉ favIds)).filter
      (fun b => b.avg_rating.isSome ∧ b.ratings_count.isSome)).filter
    (fun b => 50 ≤ b.ratings_count.getD 0)

/-- Embeds `calculate_genre_similarity` restricted to an already-parsed token list:
each token among the user's top genres adds `1 + weight`, the total being
capped at 3 (recommend.py lines 144-152). -/
def genreScoreTokens (toks : List String) (user_top_genres : List String)
    (genre_counter : Counter) : ℚ :=
  let score := toks.foldl
    (fun sc genre =>
      if genre ∈ user_top_genres then
        sc + (1 + (counterGet genre_counter genre : ℚ) / (counterValuesMax genre_counter : ℚ))
      else sc) 0
  min score 3

/-- Embeds `calculate_genre_similarity` (recommend.py lines 138-152).  The empty
string is the only falsy value of the (caller-normalized) genre field. -/
def calculate_genre_similarity (book_genres_str : String)
    (user_top_genres : List String) (genre_counter : Counter) : ℚ :=
  if book_genres_str = "" then 0
  else genreScoreTokens (genreTokens book_genres_str) user_top_genres genre_counter

/-- The fixed `genre_expansion` map (recommend.py lines 162-169). -/
def genre_expansion (g : String) : List String :=
  if g = "fantasy" then ["science fiction", "mythology", "adventure"]
  else if g = "romance" then ["contemporary", "historical fiction", "drama"]
  else if g = "mystery" then ["thriller", "crime", "suspense"]
  else if g = "science fiction" then ["fantasy", "dystopian", "adventure"]
  else if g = "historical fiction" then ["biography", "war", "drama"]
  else if g = "young adult" then ["coming of age", "contemporary", "fantasy"]
  else []

/-- Embeds `calculate_genre_diversity_bonus` (recommend.py lines 154-178): 0.3 per
distinct candidate genre that lies in the expansion of the user's genres but
is not itself a user genre.  `dedup` models the Python set of tokens. -/
def calculate_genre_diversity_bonus (book_genres_str : String)
    (user_genre_set : List String) : ℚ :=
  if book_genres_str = "" then 0
  else
    let book_genres := (genreTokens book_genres_str).dedup
    let expanded_interests :=
      user_genre_set ++ user_genre_set.foldl (fun acc g => acc ++ genre_expansion g) []
    let new_related_genres :=
      book_genres.filter (fun g => g ∈ expanded_interests ∧ g ∉ user_genre_set)
    (new_related_genres.length : ℚ) * 0.3

/-- A scored candidate: a catalog row plus the seven sub-scores and the
combined final score (recommend.py lines 76-119). -/
structure Scored where
  book : Book
  similarity_score : ℚ
  genre_score : ℚ
  author_score : ℚ
  rating_score : ℚ
  year_score : ℚ
  diversity_bonus : ℚ
  diversity_genre_bonus : ℚ
  final_score : ℚ
deriving Repr, DecidableEq

/-- The Candidate Scorer (recommend.py lines 76-119).  The popularity
normalization is column-wise over the current pool, so scoring zips the pool
with its min-max-scaled `ratings_count` column; both `avg_rating` and
`ratings_count` are non-null on every candidate by the `dropna` filter, so
the `getD 0` defaults are never taken. -/
def scoreCandidates (p : Profile) (similar_ids : List Int)
    (candidates : List Book) : List Scored :=
  let norms := minMaxScale (candidates.map (fun b => b.ratings_count.getD 0))
  (candidates.zip norms).map (fun bp =>
    let b := bp.1
    let similarity_score : ℚ := if b.work_id ∈ similar_ids then 3 else 0
    let genre_score := calculate_genre_similarity b.genres p.top_genres p.genre_counter
    let author_score : ℚ := if b.author ∈ p.top_authors then 1.5 else 0
    let rating_score : ℚ := max 0 (2 - |b.avg_rating.getD 0 - p.avg_rating_pref|)
    let year_score : ℚ :=
      match b.original_publication_year with
      | some y => max 0 (1 - |y - p.avg_year_pref| / 20)
      | none => 0
    let diversity_bonus : ℚ := (1 - bp.2) * 0.5
    let diversity_genre_bonus := calculate_genre_diversity_bonus b.genres p.top_genres
    { book := b
      similarity_score := similarity_score
      genre_score := genre_score
      author_score := author_score
      rating_score := rating_score
      year_score := year_score
      diversity_bonus := diversity_bonus
      diversity_genre_bonus := diversity_genre_bonus
      final_score :=
        similarity_score * 0.35 + genre_score * 0.25 + rating_score * 0.20 +
          author_score * 0.10 + year_score * 0.05 + diversity_bonus * 0.03 +
          diversity_genre_bonus * 0.02 })

/-- Candidates in descending `final_score` order.  `pandas.sort_values`
(line 188) uses an unstable quicksort, so tie order is
implementation-defined there; the stable descending sort is one admissible
refinement, and `nlargest` with its default `keep='first'` (line 123) is
exactly stable-descending-sort-then-take. -/
def scoredDesc (l : List Scored) : List Scored :=
  l.insertionSort (fun a b => b.final_score ≤ a.final_score)

/-- Adds the per-candidate Gaussian perturbation to the final scores
(recommend.py lines 127-128). -/
def perturb (draws : List ℚ) (l : List Scored) : List Scored :=
  (l.zip draws).map (fun sr => { sr.1 with final_score := sr.1.final_score + sr.2 })

/-- Embeds `np.random.seed(k)`: the numpy global generator state after seeding is a
function of `k` alone, the previous state being discarded. -/
def np_random_seed (k : Nat) : Nat := k

/-- Main genre of a book: the first genre token after trimming/lowercasing,
with blank tokens dropped, `"unknown"` if none remain (recommend.py lines
199-200).  A trimmed token is non-empty iff its lowercasing is, so filtering
after lowercasing agrees with Python's `if g.strip()` guard. -/
def mainGenre (b : Book) : String :=
  match (genreTokens b.genres).filter (fun g => g ≠ "") with
  | [] => "unknown"
  | g :: _ => g

/-- Number of already-selected books by a given author
(`len([s for s in selected if s['author'] == book['author']])`, line 195). -/
def countAuthor (selected : List Scored) (a : String) : Nat :=
  (selected.filter (fun s => s.book.author = a)).length

/-- Number of already-selected books with a given main genre: the running
`genre_count` Counter of lines 185/202/208 always equals this count over the
selected list, since it is incremented exactly when a book with that main
genre is accepted. -/
def countMainGenre (selected : List Scored) (g : String) : Nat :=
  (selected.filter (fun s => mainGenre s.book = g)).length

/-- First pass of `select_diverse_recommendations` (recommend.py lines
190-208): walk the sorted candidates, stopping at `top_n` selections,
skipping a book whose author is already in `used_authors` with two
selections (`used_authors` always equals the set of authors of `selected`),
or whose main genre has reached the `max(2, top_n // 3)` cap. -/
def goPass (top_n : Nat) : List Scored → List Scored → List Scored
  | [], selected => selected
  | book :: rest, selected =>
    if top_n ≤ selected.length then selected
    else if (selected.any (fun s => s.book.author = book.book.author)) ∧
        2 ≤ countAuthor selected book.book.author then
      goPass top_n rest selected
    else if max 2 (top_n / 3) ≤ countMainGenre selected (mainGenre book.book) then
      goPass top_n rest selected
    else
      goPass top_n rest (selected ++ [book])

/-- Backfill pass of `select_diverse_recommendations` (recommend.py lines
211-217): append any candidate whose `work_id` is not yet selected, ignoring
the diversity caps, until `top_n` are selected or the pool is exhausted. -/
def goBackfill (top_n : Nat) : List Scored → List Scored → List Scored
  | [], selected => selected
  | book :: rest, selected =>
    if top_n ≤ selected.length then selected
    else if selected.any (fun s => s.book.work_id = book.book.work_id) then
      goBackfill top_n rest selected
    else
      goBackfill top_n rest (selected ++ [book])

/-- Embeds `select_diverse_recommendations` (recommend.py lines 180-219).  The
`user_genres` argument is passed by the caller but never used in the body,
exactly as in the source. -/
def select_diverse_recommendations (candidates : List Scored) (top_n : Nat)
    (user_genres : List String) : List Scored :=
  let _ := user_genres
  let sorted_candidates := scoredDesc candidates
  let selected := goPass top_n sorted_candidates []
  if selected.length < top_n then goBackfill top_n sorted_candidates selected
  else selected

/-- Embeds `get_recommendations` (recommend.py lines 7-136) over the normalized
catalog.  `gauss` is the Gaussian-draw semantics of the numpy generator,
`pyHash` the process's `hash(str(·))` on the favorite-id list, and
`rngState` the numpy global generator state on entry, which line 126's
reseeding overwrites.  The `Except.error` case is sklearn's `ValueError`
when `MinMaxScaler.fit_transform` receives the empty candidate pool (line
101); every other path returns `Except.ok`.  The source returns the selected
rows with their score columns attached; here the result is projected back to
the catalog columns, which the selection leaves untouched. -/
def get_recommendations (gauss : Nat → Nat → List ℚ) (pyHash : List Int → Nat)
    (favorite_books_list : List (String × Int)) (works_df : List Book)
    (top_n : Nat) (rngState : Nat) : Except String (List Book) :=
  let _ := rngState
  let favIds := favorite_ids favorite_books_list
  let fav_books := favBooksOf favIds works_df
  if fav_books.isEmpty then Except.ok (works_df.take top_n)
  else
    let profile := buildProfile fav_books
    let similar_ids := similarIdsOf fav_books
    let candidates := candidatesOf favIds works_df
    if candidates.isEmpty then
      Except.error "ValueError: MinMaxScaler requires a non-empty input"
    else
      let scored := scoreCandidates profile similar_ids candidates
      let top_candidates := (scoredDesc scored).take (min (top_n * 3) 30)
      let seededState := np_random_seed (pyHash favIds % 1000)
      let random_factor := gauss seededState top_candidates.length
      let perturbed := perturb random_factor top_candidates
      Except.ok
        ((select_diverse_recommendations perturbed top_n profile.top_genres).map
          (fun s => s.book))

/-- A work_id cell of the caller's DataFrame: the caller of the core stores
identifiers as strings (`app.py` normalizes with `.astype(str)`), and line
15's in-place `astype(int)` turns them into integers. -/
inductive PyCell where
  | pstr (s : String)
  | pint (n : Int)
deriving Repr, DecidableEq

/-- A catalog row as the caller owns it, with the `work_id` column in
whichever representation the caller chose. -/
structure RawBook where
  work_id : PyCell
  title : String
  author : String
  genres : String
  original_publication_year : Option ℚ
  avg_rating : Option ℚ
  ratings_count : Option ℚ
  similar_books : Option String
deriving Repr, DecidableEq

/-- Embeds `int(cell)`: identity on integers, decimal parse on strings.  Python
raises on a non-numeric string; the spec's data model restricts identifiers
to integer-like strings, for which this parse agrees with `int`. -/
def cellToInt : PyCell → Int
  | PyCell.pstr s =>
    match s.data with
    | '-' :: rest => - Int.ofNat (digitsToNat rest)
    | cs => Int.ofNat (digitsToNat cs)
  | PyCell.pint n => n

/-- The caller-visible effect of line 15
(`works_df['work_id'] = works_df['work_id'].astype(int)`) on the caller's
table: every `work_id` cell is replaced by its integer cast, in place. -/
def catalogAfterCall (works_df : List RawBook) : List RawBook :=
  works_df.map (fun r => { r with work_id := PyCell.pint (cellToInt r.work_id) })

/-- View of a caller row as a core row, after the line-15 cast. -/
def toBook (r : RawBook) : Book :=
  { work_id := cellToInt r.work_id
    title := r.title
    author := r.author
    genres := r.genres
    original_publication_year := r.original_publication_year
    avg_rating := r.avg_rating
    ratings_count := r.ratings_count
    similar_books := r.similar_books }

/-- Embeds `get_recommendations` as the caller observes it: the returned value
together with the caller's catalog after the call, reflecting that line 15
mutates `works_df` in place before anything else runs. -/
def get_recommendations_raw (gauss : Nat → Nat → List ℚ) (pyHash : List Int → Nat)
    (favorite_books_list : List (String × Int)) (works_df : List RawBook)
    (top_n : Nat) (rngState : Nat) :
    Except String (List Book) × List RawBook :=
  (get_recommendations gauss pyHash favorite_books_list (works_df.map toBook) top_n rngState,
    catalogAfterCall works_df)

/-- A degenerate Gaussian generator (all draws zero), used to instantiate
the random-draw parameter at concrete inputs. -/
def gaussZero : Nat → Nat → List ℚ := fun _ n => List.replicate n 0

/-- A degenerate favorites hash, used to instantiate the hash parameter at
concrete inputs. -/
def pyHashZero : List Int → Nat := fun _ => 0

/-! Helper lemmas shared by the claim theorems. -/

theorem minMaxScale_length (xs : List ℚ) : (minMaxScale xs).length = xs.length := by
  simp [minMaxScale]

theorem scoreCandidates_map_book (p : Profile) (similar_ids : List Int)
    (candidates : List Book) :
    (scoreCandidates p similar_ids candidates).map (fun s => s.book) = candidates := by
  unfold scoreCandidates
  rw [List.map_map]
  have hlen : candidates.length ≤
      (minMaxScale (candidates.map (fun b => b.ratings_count.getD 0))).length := by
    simp [minMaxScale_length]
  have := List.map_fst_zip candidates
    (minMaxScale (candidates.map (fun b => b.ratings_count.getD 0))) hlen
  simpa [Function.comp] using this

theorem map_fst_zip_sublist {α β : Type _} (l : List α) (d : List β) :
    ((l.zip d).map Prod.fst).Sublist l := by
  induction l generalizing d with
  | nil => simp
  | cons a r ih =>
    cases d with
    | nil => simp
    | cons x xs =>
      simpa [List.zip_cons_cons] using (ih xs).cons₂ a

theorem perturb_map_book_sublist (draws : List ℚ) (l : List Scored) :
    ((perturb draws l).map (fun s => s.book)).Sublist (l.map (fun s => s.book)) := by
  unfold perturb
  rw [List.map_map]
  have h : ((l.zip draws).map (fun sr => sr.1)).Sublist l := map_fst_zip_sublist l draws
  have h2 := h.map (fun s => s.book)
  simpa [Function.comp, List.map_map] using h2

theorem goPass_append (top_n : Nat) (rest : List Scored) : ∀ sel,
    ∃ s, goPass top_n rest sel = sel ++ s ∧ s.Sublist rest := by
  induction rest with
  | nil => exact fun sel => ⟨[], by simp [goPass], List.nil_sublist _⟩
  | cons b r ih =>
    intro sel
    simp only [goPass]
    split_ifs with h1 h2 h3
    · exact ⟨[], by simp, List.nil_sublist _⟩
    · obtain ⟨s, hs, hsub⟩ := ih sel
      exact ⟨s, hs, hsub.cons b⟩
    · obtain ⟨s, hs, hsub⟩ := ih sel
      exact ⟨s, hs, hsub.cons b⟩
    · obtain ⟨s, hs, hsub⟩ := ih (sel ++ [b])
      exact ⟨b :: s, by simpa using hs, hsub.cons₂ b⟩

theorem goBackfill_append (top_n : Nat) (rest : List Scored) : ∀ sel,
    ∃ s, goBackfill top_n rest sel = sel ++ s ∧ s.Sublist rest := by
  induction rest with
  | nil => exact fun sel => ⟨[], by simp [goBackfill], List.nil_sublist _⟩
  | cons b r ih =>
    intro sel
    simp only [goBackfill]
    split_ifs with h1 h2
    · exact ⟨[], by simp, List.nil_sublist _⟩
    · obtain ⟨s, hs, hsub⟩ := ih sel
      exact ⟨s, hs, hsub.cons b⟩
    · obtain ⟨s, hs, hsub⟩ := ih (sel ++ [b])
      exact ⟨b :: s, by simpa using hs, hsub.cons₂ b⟩

theorem goPass_length_le (top_n : Nat) (rest : List Scored) : ∀ sel,
    sel.length ≤ top_n → (goPass top_n rest sel).length ≤ top_n := by
  induction rest with
  | nil => intro sel h; simpa [goPass] using h
  | cons b r ih =>
    intro sel h
    simp only [goPass]
    split_ifs with h1 h2 h3
    · exact h
    · exact ih sel h
    · exact ih sel h
    · exact ih (sel ++ [b]) (by simpa using Nat.lt_of_not_le h1)

theorem goBackfill_length_le (top_n : Nat) (rest : List Scored) : ∀ sel,
    sel.length ≤ top_n → (goBackfill top_n rest sel).length ≤ top_n := by
  induction rest with
  | nil => intro sel h; simpa [goBackfill] using h
  | cons b r ih =>
    intro sel h
    simp only [goBackfill]
    split_ifs with h1 h2
    · exact h
    · exact ih sel h
    · exact ih (sel ++ [b]) (by simpa using Nat.lt_of_not_le h1)

theorem goBackfill_nodup (top_n : Nat) (rest : List Scored) : ∀ sel,
    (sel.map (fun s => s.book.work_id)).Nodup →
    ((goBackfill top_n rest sel).map (fun s => s.book.work_id)).Nodup := by
  induction rest with
  | nil => intro sel h; simpa [goBackfill] using h
  | cons b r ih =>
    intro sel h
    simp only [goBackfill]
    split_ifs with h1 h2
    · exact h
    · exact ih sel h
    · refine ih (sel ++ [b]) ?_
      have hnotin : ∀ x ∈ sel, ¬ x.book.work_id = b.book.work_id := by
        simp only [List.any_eq_true, decide_eq_true_eq] at h2
        intro x hx heq
        exact h2 ⟨x, hx, heq⟩
      simpa [List.nodup_append] using ⟨h, hnotin⟩

theorem countAuthor_append (sel : List Scored) (b : Scored) (a : String) :
    countAuthor (sel ++ [b]) a =
      countAuthor sel a + (if b.book.author = a then 1 else 0) := by
  simp only [countAuthor, List.filter_append, List.length_append]
  congr 1
  split_ifs with h <;> simp [h]

theorem countMainGenre_append (sel : List Scored) (b : Scored) (g : String) :
    countMainGenre (sel ++ [b]) g =
      countMainGenre sel g + (if mainGenre b.book = g then 1 else 0) := by
  simp only [countMainGenre, List.filter_append, List.length_append]
  congr 1
  split_ifs with h <;> simp [h]

theorem countAuthor_eq_zero (sel : List Scored) (a : String)
    (h : ¬ sel.any (fun s => s.book.author = a) = true) : countAuthor sel a = 0 := by
  simp only [List.any_eq_true, decide_eq_true_eq] at h
  simp only [countAuthor, List.length_eq_zero, List.filter_eq_nil_iff,
    decide_eq_true_eq]
  intro x hx heq
  exact h ⟨x, hx, heq⟩

theorem goPass_caps (top_n : Nat) (rest : List Scored) : ∀ sel,
    (∀ a, countAuthor sel a ≤ 2) →
    (∀ g, countMainGenre sel g ≤ max 2 (top_n / 3)) →
    (∀ a, countAuthor (goPass top_n rest sel) a ≤ 2) ∧
      (∀ g, countMainGenre (goPass top_n rest sel) g ≤ max 2 (top_n / 3)) := by
  induction rest with
  | nil => intro sel hA hG; simp only [goPass]; exact ⟨hA, hG⟩
  | cons b r ih =>
    intro sel hA hG
    simp only [goPass]
    split_ifs with h1 h2 h3
    · exact ⟨hA, hG⟩
    · exact ih sel hA hG
    · exact ih sel hA hG
    · refine ih (sel ++ [b]) ?_ ?_
      · intro a
        rw [countAuthor_append]
        by_cases ha : b.book.author = a
        · rw [if_pos ha, ← ha]
          have hle : countAuthor sel b.book.author ≤ 1 := by
            rcases not_and_or.mp h2 with hno | hcnt
            · simp [countAuthor_eq_zero sel b.book.author hno]
            · exact Nat.le_of_lt_succ (Nat.lt_of_not_le hcnt)
          omega
        · rw [if_neg ha]
          simpa using hA a
      · intro g
        rw [countMainGenre_append]
        by_cases hg : mainGenre b.book = g
        · rw [if_pos hg, ← hg]
          have hlt : countMainGenre sel (mainGenre b.book) < max 2 (top_n / 3) :=
            Nat.lt_of_not_le h3
          omega
        · rw [if_neg hg]
          simpa using hG g

theorem select_eq_ite (cands : List Scored) (top_n : Nat) (ug : List String) :
    select_diverse_recommendations cands top_n ug =
      if (goPass top_n (scoredDesc cands) []).length < top_n then
        goBackfill top_n (scoredDesc cands) (goPass top_n (scoredDesc cands) [])
      else goPass top_n (scoredDesc cands) [] := rfl

theorem select_length_le (cands : List Scored) (top_n : Nat) (ug : List String) :
    (select_diverse_recommendations cands top_n ug).length ≤ top_n := by
  rw [select_eq_ite]
  split_ifs with h
  · exact goBackfill_length_le _ _ _ (Nat.le_of_lt h)
  · exact goPass_length_le _ _ _ (Nat.zero_le _)

theorem select_subset (cands : List Scored) (top_n : Nat) (ug : List String) :
    ∀ x ∈ select_diverse_recommendations cands top_n ug, x ∈ cands := by
  have hperm := List.perm_insertionSort (fun a b : Scored => b.final_score ≤ a.final_score) cands
  obtain ⟨s1, hs1, hsub1⟩ := goPass_append top_n (scoredDesc cands) []
  rw [select_eq_ite]
  split_ifs with h
  · obtain ⟨s2, hs2, hsub2⟩ :=
      goBackfill_append top_n (scoredDesc cands) (goPass top_n (scoredDesc cands) [])
    intro x hx
    rw [hs2] at hx
    rcases List.mem_append.mp hx with hx1 | hx2
    · rw [hs1] at hx1
      simp only [List.nil_append] at hx1
      exact hperm.mem_iff.mp (hsub1.subset hx1)
    · exact hperm.mem_iff.mp (hsub2.subset hx2)
  · intro x hx
    rw [hs1] at hx
    simp only [List.nil_append] at hx
    exact hperm.mem_iff.mp (hsub1.subset hx)

theorem select_nodup (cands : List Scored) (top_n : Nat) (ug : List String)
    (h : (cands.map (fun s => s.book.work_id)).Nodup) :
    ((select_diverse_recommendations cands top_n ug).map
      (fun s => s.book.work_id)).Nodup := by
  have hperm : ((scoredDesc cands).map (fun s => s.book.work_id)).Perm
      (cands.map (fun s => s.book.work_id)) :=
    (List.perm_insertionSort _ cands).map _
  have hsorted : ((scoredDesc cands).map (fun s => s.book.work_id)).Nodup :=
    hperm.nodup_iff.mpr h
  obtain ⟨s1, hs1, hsub1⟩ := goPass_append top_n (scoredDesc cands) []
  have hpass : ((goPass top_n (scoredDesc cands) []).map
      (fun s => s.book.work_id)).Nodup := by
    rw [hs1]
    simp only [List.nil_append]
    exact hsorted.sublist (hsub1.map _)
  rw [select_eq_ite]
  split_ifs with hlt
  · exact goBackfill_nodup _ _ _ hpass
  · exact hpass

theorem select_eq_goPass (cands : List Scored) (top_n : Nat) (ug : List String)
    (h : ¬ (goPass top_n (scoredDesc cands) []).length < top_n) :
    select_diverse_recommendations cands top_n ug =
      goPass top_n (scoredDesc cands) [] := by
  rw [select_eq_ite, if_neg h]

/-- The perturbed candidate pool handed to the Diversity Selector on the
normal path of `get_recommendations` (recommend.py lines 123-128), written
out as a function of the inputs. -/
def perturbedPool (gauss : Nat → Nat → List ℚ) (pyHash : List Int → Nat)
    (favorite_books_list : List (String × Int)) (works_df : List Book)
    (top_n : Nat) : List Scored :=
  let favIds := favorite_ids favorite_books_list
  let fav_books := favBooksOf favIds works_df
  let profile := buildProfile fav_books
  let scored := scoreCandidates profile (similarIdsOf fav_books) (candidatesOf favIds works_df)
  let top_candidates := (scoredDesc scored).take (min (top_n * 3) 30)
  perturb (gauss (np_random_seed (pyHash favIds % 1000)) top_candidates.length) top_candidates

theorem get_recommendations_eq (gauss : Nat → Nat → List ℚ)
    (pyHash : List Int → Nat) (fav : List (String × Int)) (works : List Book)
    (top_n : Nat) (st : Nat) :
    get_recommendations gauss pyHash fav works top_n st =
      if (favBooksOf (favorite_ids fav) works).isEmpty then
        Except.ok (works.take top_n)
      else if (candidatesOf (favorite_ids fav) works).isEmpty then
        Except.error "ValueError: MinMaxScaler requires a non-empty input"
      else
        Except.ok ((select_diverse_recommendations
            (perturbedPool gauss pyHash fav works top_n) top_n
            (buildProfile (favBooksOf (favorite_ids fav) works)).top_genres).map
          (fun s => s.book)) := rfl

theorem candidatesOf_sublist (favIds : List Int) (works : List Book) :
    (candidatesOf favIds works).Sublist works :=
  ((List.filter_sublist _).trans (List.filter_sublist _)).trans (List.filter_sublist _)

theorem mem_candidatesOf {favIds : List Int} {works : List Book} {b : Book}
    (h : b ∈ candidatesOf favIds works) :
    b ∈ works ∧ b.work_id ∉ favIds ∧ b.avg_rating.isSome ∧
      b.ratings_count.isSome ∧ 50 ≤ b.ratings_count.getD 0 := by
  simp only [candidatesOf, List.mem_filter, decide_eq_true_eq] at h
  tauto

theorem perturbedPool_book_mem (gauss : Nat → Nat → List ℚ)
    (pyHash : List Int → Nat) (fav : List (String × Int)) (works : List Book)
    (top_n : Nat) :
    ∀ s ∈ perturbedPool gauss pyHash fav works top_n,
      s.book ∈ candidatesOf (favorite_ids fav) works := by
  intro s hs
  unfold perturbedPool at hs
  set scored := scoreCandidates (buildProfile (favBooksOf (favorite_ids fav) works))
    (similarIdsOf (favBooksOf (favorite_ids fav) works))
    (candidatesOf (favorite_ids fav) works) with hscored
  have h1 : s.book ∈ ((scoredDesc scored).take (min (top_n * 3) 30)).map
      (fun s => s.book) :=
    (perturb_map_book_sublist _ _).subset (List.mem_map_of_mem _ hs)
  have h2 : s.book ∈ (scoredDesc scored).map (fun s => s.book) :=
    ((List.take_sublist _ _).map _).subset h1
  have h3 : s.book ∈ scored.map (fun s => s.book) :=
    (((List.perm_insertionSort _ scored).map _).mem_iff).mp h2
  rw [hscored, scoreCandidates_map_book] at h3
  exact h3

theorem perturbedPool_ids_nodup (gauss : Nat → Nat → List ℚ)
    (pyHash : List Int → Nat) (fav : List (String × Int)) (works : List Book)
    (top_n : Nat) (hw : (works.map (fun b => b.work_id)).Nodup) :
    ((perturbedPool gauss pyHash fav works top_n).map
      (fun s => s.book.work_id)).Nodup := by
  set favIds := favorite_ids fav
  set scored := scoreCandidates (buildProfile (favBooksOf favIds works))
    (similarIdsOf (favBooksOf favIds works)) (candidatesOf favIds works) with hscored
  have hcand : ((candidatesOf favIds works).map (fun b => b.work_id)).Nodup :=
    hw.sublist ((candidatesOf_sublist favIds works).map _)
  have hscored_ids : (scored.map (fun s => s.book.work_id)).Nodup := by
    have : scored.map (fun s => s.book.work_id) =
        (scored.map (fun s => s.book)).map (fun b => b.work_id) := by
      rw [List.map_map]
      rfl
    rw [this, hscored, scoreCandidates_map_book]
    exact hcand
  have hsorted : ((scoredDesc scored).map (fun s => s.book.work_id)).Nodup :=
    (((List.perm_insertionSort _ scored).map _).nodup_iff).mpr hscored_ids
  have htake : (((scoredDesc scored).take (min (top_n * 3) 30)).map
      (fun s => s.book.work_id)).Nodup :=
    hsorted.sublist ((List.take_sublist _ _).map _)
  have hbooks : ((perturbedPool gauss pyHash fav works top_n).map (fun s => s.book)).Sublist
      (((scoredDesc scored).take (min (top_n * 3) 30)).map (fun s => s.book)) := by
    unfold perturbedPool
    exact perturb_map_book_sublist _ _
  have hids := hbooks.map (fun b => b.work_id)
  rw [List.map_map, List.map_map] at hids
  exact htake.sublist (by simpa [Function.comp] using hids)

/-! Concrete rows used to instantiate theorems with hypotheses. -/

/-- A concrete catalog row (well-populated, rating count above the floor). -/
def bookA : Book :=
  { work_id := 1, title := "A", author := "aa", genres := "fantasy"
    original_publication_year := some 2000, avg_rating := some 4
    ratings_count := some 100, similar_books := some "2" }

/-- A second concrete catalog row, not a favorite in the instantiations. -/
def bookB : Book :=
  { work_id := 2, title := "B", author := "bb", genres := "romance"
    original_publication_year := some 2001, avg_rating := some 4
    ratings_count := some 200, similar_books := none }

/-- A concrete catalog row whose rating count (10) is below the 50 floor. -/
def bookLow : Book :=
  { work_id := 3, title := "C", author := "cc", genres := ""
    original_publication_year := none, avg_rating := some 4
    ratings_count := some 10, similar_books := none }

/-! Claim theorems. -/

/-- C1 (amended): for every catalog whose identifiers are pairwise distinct
(the data-model invariant of spec section 3) and every N, whenever
`get_recommendations` returns a list — it can instead raise, see
`C1_counterexample` — that list has at most N books, each of which is a row
of the input catalog, and no two returned books share the same work_id. -/
theorem C1_shape (gauss : Nat → Nat → List ℚ) (pyHash : List Int → Nat)
    (fav : List (String × Int)) (works : List Book) (top_n st : Nat)
    (l : List Book) (hnodup : (works.map (fun b => b.work_id)).Nodup)
    (h : get_recommendations gauss pyHash fav works top_n st = Except.ok l) :
    l.length ≤ top_n ∧ (∀ b ∈ l, b ∈ works) ∧
      (l.map (fun b => b.work_id)).Nodup := by
  rw [get_recommendations_eq] at h
  split_ifs at h with h1 h2
  · injection h with h'
    subst h'
    refine ⟨List.length_take_le top_n works, fun b hb => List.take_subset _ _ hb, ?_⟩
    exact hnodup.sublist ((List.take_sublist _ _).map _)
  · injection h with h'
    subst h'
    refine ⟨?_, ?_, ?_⟩
    · simpa using select_length_le (perturbedPool gauss pyHash fav works top_n) top_n _
    · intro b hb
      obtain ⟨s, hs, rfl⟩ := List.mem_map.mp hb
      have hcand := perturbedPool_book_mem gauss pyHash fav works top_n s
        (select_subset _ _ _ s hs)
      exact (mem_candidatesOf hcand).1
    · rw [List.map_map]
      have := select_nodup (perturbedPool gauss pyHash fav works top_n) top_n
        (buildProfile (favBooksOf (favorite_ids fav) works)).top_genres
        (perturbedPool_ids_nodup gauss pyHash fav works top_n hnodup)
      simpa [Function.comp] using this

/-- Witness for `C1_shape`: a concrete normal-path run, favorites `[1]`
against the catalog `[bookA, bookB]`, returning `[bookB]`. -/
theorem C1_shape_witness :
    ([bookB] : List Book).length ≤ 1 ∧ (∀ b ∈ ([bookB] : List Book), b ∈ [bookA, bookB]) ∧
      (([bookB] : List Book).map (fun b => b.work_id)).Nodup :=
  C1_shape gaussZero pyHashZero [("A", 1)] [bookA, bookB] 1 0 [bookB]
    (by decide) (by rfl)

/-- C1 counterexample: the one-row non-empty catalog `[bookA]` with the
favorite resolving to that row leaves the candidate pool empty, and the call
raises (sklearn's MinMaxScaler rejects an empty input) instead of returning
a list of books, refuting the claim as stated for every non-empty catalog. -/
theorem C1_counterexample :
    ([bookA] : List Book) ≠ [] ∧ (1 : Nat) ≥ 1 ∧
      get_recommendations gaussZero pyHashZero [("A", 1)] [bookA] 1 0 =
        Except.error "ValueError: MinMaxScaler requires a non-empty input" :=
  ⟨by decide, le_refl 1, rfl⟩

/-- C2: no identifier supplied in the favorites list appears as the work_id
of any returned book, on the normal scoring path (favorites are filtered out
of the candidate pool) and on the empty-profile fallback path (where by
definition no catalog row carries a favorite identifier). -/
theorem C2_no_favorite_returned (gauss : Nat → Nat → List ℚ)
    (pyHash : List Int → Nat) (fav : List (String × Int)) (works : List Book)
    (top_n st : Nat) (l : List Book)
    (h : get_recommendations gauss pyHash fav works top_n st = Except.ok l) :
    ∀ b ∈ l, b.work_id ∉ favorite_ids fav := by
  rw [get_recommendations_eq] at h
  split_ifs at h with h1 h2
  · injection h with h'
    subst h'
    intro b hb hbid
    have hbw : b ∈ works := List.take_subset _ _ hb
    have hnil : favBooksOf (favorite_ids fav) works = [] := List.isEmpty_iff.mp h1
    have := List.filter_eq_nil_iff.mp hnil b hbw
    simp only [decide_eq_true_eq] at this
    exact this hbid
  · injection h with h'
    subst h'
    intro b hb
    obtain ⟨s, hs, rfl⟩ := List.mem_map.mp hb
    have hcand := perturbedPool_book_mem gauss pyHash fav works top_n s
      (select_subset _ _ _ s hs)
    exact (mem_candidatesOf hcand).2.1

/-- Witness for `C2_no_favorite_returned` at the same concrete normal-path
run as the C1 witness. -/
theorem C2_witness : bookB.work_id ∉ favorite_ids [("A", 1)] :=
  C2_no_favorite_returned gaussZero pyHashZero [("A", 1)] [bookA, bookB] 1 0 [bookB]
    (by rfl) bookB (by decide)

/-- C3: `get_recommendations` is deterministic — the result does not depend
on the incoming numpy generator state, because line 126 reseeds the
generator with a value derived only from the favorite-identifier list
(`hash(str(favorite_ids)) % 1000`), so two calls with the same favorites and
the same catalog yield the identical ordered result.  The statement
quantifies over the per-process hash function and the Gaussian-draw
semantics, which are fixed within a process. -/
theorem C3_deterministic (gauss : Nat → Nat → List ℚ) (pyHash : List Int → Nat)
    (fav : List (String × Int)) (works : List Book) (top_n : Nat)
    (st1 st2 : Nat) :
    get_recommendations gauss pyHash fav works top_n st1 =
      get_recommendations gauss pyHash fav works top_n st2 := rfl

/-- C5 (amended): whenever at least one favorite resolves against the
catalog (the normal scoring path) and the call returns, every returned book
carries a present rating count of at least 50 and a present rating; on the
fallback path the first N rows are returned unfiltered, see
`C5_counterexample`. -/
theorem C5_rating_floor (gauss : Nat → Nat → List ℚ) (pyHash : List Int → Nat)
    (fav : List (String × Int)) (works : List Book) (top_n st : Nat)
    (l : List Book)
    (hfav : favBooksOf (favorite_ids fav) works ≠ [])
    (h : get_recommendations gauss pyHash fav works top_n st = Except.ok l) :
    ∀ b ∈ l, b.avg_rating.isSome ∧ ∃ r, b.ratings_count = some r ∧ 50 ≤ r := by
  rw [get_recommendations_eq] at h
  split_ifs at h with h1 h2
  · exact absurd (List.isEmpty_iff.mp h1) hfav
  · injection h with h'
    subst h'
    intro b hb
    obtain ⟨s, hs, rfl⟩ := List.mem_map.mp hb
    have hcand := perturbedPool_book_mem gauss pyHash fav works top_n s
      (select_subset _ _ _ s hs)
    obtain ⟨-, -, hrs, hcs, hge⟩ := mem_candidatesOf hcand
    refine ⟨hrs, ?_⟩
    obtain ⟨r, hr⟩ := Option.isSome_iff_exists.mp hcs
    exact ⟨r, hr, by simpa [hr] using hge⟩

/-- Witness for `C5_rating_floor` at the concrete normal-path run. -/
theorem C5_witness :
    bookB.avg_rating.isSome ∧ ∃ r, bookB.ratings_count = some r ∧ 50 ≤ r :=
  C5_rating_floor gaussZero pyHashZero [("A", 1)] [bookA, bookB] 1 0 [bookB]
    (by decide) (by rfl) bookB (by decide)

/-- C5 counterexample: when no favorite resolves, the fallback returns the
first N rows unfiltered, so `bookLow` with rating count 10 (below the 50
floor) is returned, refuting the claim for every favorites list. -/
theorem C5_counterexample :
    get_recommendations gaussZero pyHashZero [("X", 999)] [bookLow] 1 0 =
        Except.ok [bookLow] ∧
      bookLow.ratings_count = some 10 ∧ (10 : ℚ) < 50 :=
  ⟨rfl, rfl, by norm_num⟩

/-- C6: if no favorite identifier resolves to a row of the catalog,
`get_recommendations` returns the first N catalog rows (`works_df.head`),
with no error; by `get_recommendations_eq` this branch is taken before the
scoring and selection stages are ever evaluated. -/
theorem C6_fallback (gauss : Nat → Nat → List ℚ) (pyHash : List Int → Nat)
    (fav : List (String × Int)) (works : List Book) (top_n st : Nat)
    (h : ∀ b ∈ works, b.work_id ∉ favorite_ids fav) :
    get_recommendations gauss pyHash fav works top_n st =
      Except.ok (works.take top_n) := by
  rw [get_recommendations_eq]
  have hnil : favBooksOf (favorite_ids fav) works = [] := by
    apply List.filter_eq_nil_iff.mpr
    intro b hb
    simpa using h b hb
  rw [if_pos (by simp [hnil])]

/-- Witness for `C6_fallback`: favorites `[999]` resolve against nothing in
`[bookA]`, and the first row comes back. -/
theorem C6_witness :
    get_recommendations gaussZero pyHashZero [("X", 999)] [bookA] 1 0 =
      Except.ok ([bookA].take 1) :=
  C6_fallback gaussZero pyHashZero [("X", 999)] [bookA] 1 0 (by decide)

/-- C7 (amended): unparsable genre or similar-book tokens never abort the
call — the theorem quantifies over catalogs with arbitrary genre and
similar-book strings — and the call returns normally whenever no favorite
resolves (fallback) or the filtered candidate pool is non-empty.  The one
exception path is unrelated to malformed tokens: an empty candidate pool
makes the popularity scaler raise, see `C7_counterexample`. -/
theorem C7_no_exception (gauss : Nat → Nat → List ℚ) (pyHash : List Int → Nat)
    (fav : List (String × Int)) (works : List Book) (top_n st : Nat)
    (h : favBooksOf (favorite_ids fav) works = [] ∨
      candidatesOf (favorite_ids fav) works ≠ []) :
    ∃ l, get_recommendations gauss pyHash fav works top_n st = Except.ok l := by
  rw [get_recommendations_eq]
  by_cases h1 : (favBooksOf (favorite_ids fav) works).isEmpty
  · exact ⟨_, by rw [if_pos h1]⟩
  · rcases h with h | h
    · exact absurd (by simp [h]) h1
    · rw [if_neg h1, if_neg (by simpa using h)]
      exact ⟨_, rfl⟩

/-- Witness for `C7_no_exception`: a catalog whose genre string is
unparsable noise and whose similar-book string holds a non-digit token still
returns normally. -/
theorem C7_witness :
    ∃ l, get_recommendations gaussZero pyHashZero [("A", 1)]
      [bookA,
        { work_id := 4, title := "D", author := "dd", genres := ",,@@!! ,x"
          original_publication_year := some 1990, avg_rating := some 3
          ratings_count := some 60, similar_books := some "abc, 7foo, " }] 1 0 =
      Except.ok l :=
  C7_no_exception gaussZero pyHashZero [("A", 1)]
    [bookA,
      { work_id := 4, title := "D", author := "dd", genres := ",,@@!! ,x"
        original_publication_year := some 1990, avg_rating := some 3
        ratings_count := some 60, similar_books := some "abc, 7foo, " }] 1 0
    (Or.inr (by decide))

/-- C7 counterexample: fully well-formed favorites and catalog — the ids are
integers, the genre strings plain — still raise: both rows are favorites, so
the filtered candidate pool is empty and sklearn's MinMaxScaler rejects it,
refuting the claim that no exception is possible for structurally valid
input. -/
theorem C7_counterexample :
    get_recommendations gaussZero pyHashZero [("A", 1), ("C", 3)]
        [bookA, bookLow] 10 0 =
      Except.error "ValueError: MinMaxScaler requires a non-empty input" := rfl

/-- C4: for every perturbed candidate pool and every N, when the first
diversity pass alone reaches N selections — that is, the backfill pass of
lines 211-217 is not needed — the list returned by
`select_diverse_recommendations` contains at most 2 books per author and at
most `max(2, N // 3)` books per main genre.  (When backfill is needed the
claim permits the caps to be exceeded, so no bound is asserted there.) -/
theorem C4_diversity_caps (cands : List Scored) (top_n : Nat) (ug : List String)
    (h : ¬ (goPass top_n (scoredDesc cands) []).length < top_n) :
    (∀ a, countAuthor (select_diverse_recommendations cands top_n ug) a ≤ 2) ∧
      (∀ g, countMainGenre (select_diverse_recommendations cands top_n ug) g ≤
        max 2 (top_n / 3)) := by
  rw [select_eq_goPass cands top_n ug h]
  exact goPass_caps top_n (scoredDesc cands) []
    (fun a => by simp [countAuthor]) (fun g => by simp [countMainGenre])

/-- A concrete scored candidate used to instantiate the selector theorems. -/
def scoredB : Scored :=
  { book := bookB, similarity_score := 0, genre_score := 0, author_score := 0
    rating_score := 0, year_score := 0, diversity_bonus := 0
    diversity_genre_bonus := 0, final_score := 1 }

/-- Witness for `C4_diversity_caps`: a one-candidate pool with N = 1, where
the first pass already fills the quota. -/
theorem C4_witness :
    (∀ a, countAuthor (select_diverse_recommendations [scoredB] 1 []) a ≤ 2) ∧
      (∀ g, countMainGenre (select_diverse_recommendations [scoredB] 1 []) g ≤
        max 2 (1 / 3)) :=
  C4_diversity_caps [scoredB] 1 [] (by decide)

theorem genreWeight_nonneg (counter : Counter) (g : String) :
    (0 : ℚ) ≤ 1 + (counterGet counter g : ℚ) / (counterValuesMax counter : ℚ) := by
  have h : (0 : ℚ) ≤ (counterGet counter g : ℚ) / (counterValuesMax counter : ℚ) :=
    div_nonneg (by positivity) (by positivity)
  linarith

theorem genreFold_eq (top : List String) (counter : Counter)
    (toks : List String) (init : ℚ) :
    toks.foldl (fun sc genre =>
        if genre ∈ top then
          sc + (1 + (counterGet counter genre : ℚ) / (counterValuesMax counter : ℚ))
        else sc) init =
      init + (toks.map (fun genre =>
        if genre ∈ top then
          1 + (counterGet counter genre : ℚ) / (counterValuesMax counter : ℚ)
        else 0)).sum := by
  induction toks generalizing init with
  | nil => simp
  | cons g r ih =>
    simp only [List.foldl_cons, List.map_cons, List.sum_cons]
    by_cases hg : g ∈ top
    · rw [if_pos hg, if_pos hg, ih]; ring
    · rw [if_neg hg, if_neg hg, ih]; ring

theorem genreScoreTokens_mono (top : List String) (counter : Counter)
    (toks1 toks2 : List String) (h : toks1.Sublist toks2) :
    genreScoreTokens toks1 top counter ≤ genreScoreTokens toks2 top counter := by
  unfold genreScoreTokens
  refine min_le_min ?_ le_rfl
  rw [genreFold_eq, genreFold_eq]
  simp only [zero_add]
  refine List.Sublist.sum_le_sum (h.map _) ?_
  intro x hx
  obtain ⟨g, hg, rfl⟩ := List.mem_map.mp hx
  split_ifs
  · exact genreWeight_nonneg counter g
  · exact le_refl 0

theorem calculate_genre_similarity_le_three (s : String) (top : List String)
    (counter : Counter) : calculate_genre_similarity s top counter ≤ 3 := by
  unfold calculate_genre_similarity genreScoreTokens
  split_ifs
  · norm_num
  · exact min_le_right _ _

theorem calculate_genre_similarity_no_overlap (s : String) (top : List String)
    (counter : Counter) (h : ∀ g ∈ genreTokens s, g ∉ top) :
    calculate_genre_similarity s top counter = 0 := by
  unfold calculate_genre_similarity genreScoreTokens
  split_ifs with hs
  · rfl
  · rw [genreFold_eq]
    have hz : ((genreTokens s).map (fun genre =>
        if genre ∈ top then
          1 + (counterGet counter genre : ℚ) / (counterValuesMax counter : ℚ)
        else 0)).sum = 0 := by
      apply List.sum_eq_zero
      intro x hx
      obtain ⟨g, hg, rfl⟩ := List.mem_map.mp hx
      rw [if_neg (h g hg)]
    rw [hz]
    norm_num

/-- C8: the genre score of `calculate_genre_similarity` never exceeds 3, is
0 for a candidate with no overlap with the user's top genres, and is
monotonically non-decreasing in the candidate's matched genre tokens: adding
genre tokens (a sublist relation on the parsed token lists, which
`calculate_genre_similarity` reduces to for non-empty genre strings) never
decreases the score. -/
theorem C8_genre_score :
    (∀ s top counter, calculate_genre_similarity s top counter ≤ 3) ∧
      (∀ s top counter, (∀ g ∈ genreTokens s, g ∉ top) →
        calculate_genre_similarity s top counter = 0) ∧
      (∀ top counter (toks1 toks2 : List String), toks1.Sublist toks2 →
        genreScoreTokens toks1 top counter ≤ genreScoreTokens toks2 top counter) ∧
      (∀ s top counter, s ≠ "" →
        calculate_genre_similarity s top counter =
          genreScoreTokens (genreTokens s) top counter) := by
  refine ⟨calculate_genre_similarity_le_three,
    calculate_genre_similarity_no_overlap, genreScoreTokens_mono,
    fun s top counter hs => ?_⟩
  unfold calculate_genre_similarity
  rw [if_neg hs]

/-- Witness for `C8_genre_score`, at a two-token genre string against a
one-genre profile. -/
theorem C8_witness :
    calculate_genre_similarity "fantasy, drama" ["fantasy"] [("fantasy", 2)] ≤ 3 ∧
      calculate_genre_similarity "drama" ["fantasy"] [("fantasy", 2)] = 0 ∧
      genreScoreTokens ["fantasy"] ["fantasy"] [("fantasy", 2)] ≤
        genreScoreTokens ["fantasy", "drama"] ["fantasy"] [("fantasy", 2)] ∧
      calculate_genre_similarity "fantasy" ["fantasy"] [("fantasy", 2)] =
        genreScoreTokens (genreTokens "fantasy") ["fantasy"] [("fantasy", 2)] :=
  ⟨C8_genre_score.1 "fantasy, drama" ["fantasy"] [("fantasy", 2)],
    C8_genre_score.2.1 "drama" ["fantasy"] [("fantasy", 2)] (by decide),
    C8_genre_score.2.2.1 ["fantasy"] [("fantasy", 2)] ["fantasy"]
      ["fantasy", "drama"] ((List.nil_sublist ["drama"]).cons₂ "fantasy"),
    C8_genre_score.2.2.2 "fantasy" ["fantasy"] [("fantasy", 2)] (by decide)⟩

/-- A caller-side catalog row whose work_id is stored as a string, as
`app.py` normalizes the column (`.astype(str)`). -/
def rawBookA : RawBook :=
  { work_id := PyCell.pstr "101", title := "A", author := "aa", genres := ""
    original_publication_year := none, avg_rating := some 4
    ratings_count := some 100, similar_books := none }

/-- A caller-side catalog row whose work_id is already an integer. -/
def rawBookB : RawBook :=
  { work_id := PyCell.pint 2, title := "B", author := "bb", genres := ""
    original_publication_year := none, avg_rating := some 4
    ratings_count := some 100, similar_books := none }

/-- C9 counterexample: the caller of the core stores work_id as strings
(app.py casts the column with `.astype(str)`), and line 15
(`works_df['work_id'] = works_df['work_id'].astype(int)`) re-casts that
column of the caller's table in place, so the catalog observed by the
caller after the call differs from the catalog before it — refuting the
no-mutation claim as stated. -/
theorem C9_counterexample :
    (get_recommendations_raw gaussZero pyHashZero [] [rawBookA] 10 0).2 ≠
      [rawBookA] := by decide

/-- C9 (amended): the only caller-visible mutation is line 15's in-place
integer cast of the work_id column — every other field of every row is
preserved, and when the caller's work_id cells are already integers the
catalog observed after the call equals the catalog before it. -/
theorem C9_mutation_only_work_id (gauss : Nat → Nat → List ℚ)
    (pyHash : List Int → Nat) (fav : List (String × Int))
    (works : List RawBook) (top_n st : Nat) :
    (((get_recommendations_raw gauss pyHash fav works top_n st).2).map
        (fun r => (r.title, r.author, r.genres, r.original_publication_year,
          r.avg_rating, r.ratings_count, r.similar_books)) =
      works.map (fun r => (r.title, r.author, r.genres,
        r.original_publication_year, r.avg_rating, r.ratings_count,
        r.similar_books))) ∧
    ((∀ r ∈ works, ∃ k, r.work_id = PyCell.pint k) →
      (get_recommendations_raw gauss pyHash fav works top_n st).2 = works) := by
  constructor
  · show (catalogAfterCall works).map _ = _
    unfold catalogAfterCall
    rw [List.map_map]
    rfl
  · intro hint
    show catalogAfterCall works = works
    unfold catalogAfterCall
    have hfix : ∀ r ∈ works,
        ({ r with work_id := PyCell.pint (cellToInt r.work_id) } : RawBook) = r := by
      intro r hr
      obtain ⟨k, hk⟩ := hint r hr
      cases r
      simp_all [cellToInt]
    rw [List.map_congr_left hfix, List.map_id']

/-- Witness for `C9_mutation_only_work_id`: an integer-id catalog is
observationally unchanged by the call. -/
theorem C9_witness :
    (get_recommendations_raw gaussZero pyHashZero [] [rawBookB] 10 0).2 =
      [rawBookB] :=
  (C9_mutation_only_work_id gaussZero pyHashZero [] [rawBookB] 10 0).2
    (by
      intro r hr
      rw [List.mem_singleton] at hr
      subst hr
      exact ⟨2, rfl⟩)

/-- C10: the preference profile — genre counts, author counts, top genres,
top authors, mean preferred year, mean preferred rating — depends only on
the set of favorite identifiers that resolve in the catalog: favorites lists
with the same members (in particular one listing the same identifier twice)
select the same catalog rows by `isin`-membership, each matching row counted
once, hence yield the same profile. -/
theorem C10_profile_depends_on_id_set (ids1 ids2 : List Int)
    (works : List Book) (h : ∀ x : Int, x ∈ ids1 ↔ x ∈ ids2) :
    buildProfile (favBooksOf ids1 works) = buildProfile (favBooksOf ids2 works) := by
  have heq : favBooksOf ids1 works = favBooksOf ids2 works := by
    unfold favBooksOf
    exact List.filter_congr (fun b _ => by simp [h b.work_id])
  rw [heq]

/-- Witness for `C10_profile_depends_on_id_set`: listing favorite `1` twice
changes nothing. -/
theorem C10_witness :
    buildProfile (favBooksOf [1, 1] [bookA, bookB]) =
      buildProfile (favBooksOf [1] [bookA, bookB]) :=
  C10_profile_depends_on_id_set [1, 1] [1] [bookA, bookB] (fun x => by simp)
